import Mathlib

/-!
Verification of the contract-layer schemas and the domain generation tool of
the teamrob intention-aware-planning repository.

The embedding mirrors the two source files:
* `src/shared/types.py` — plain Python dataclasses (no `__post_init__`, no
  validator functions anywhere in the repository); constructing an instance
  always succeeds and stores the given field values unchanged.  Python floats
  are modelled as rationals (`ℚ`); `Dict[str, Any]` open bags are modelled as
  association lists of strings (their contents are irrelevant to the claims).
* `src/scripts/domain_assembler.py` — the one-shot domain generator.  Its
  filesystem and console side effects are modelled as an explicit effect
  trace, and an uncaught Python exception as an `Except.error` (a Python
  process that ends with an uncaught exception exits with a non-zero code).
-/

namespace Teamrob

/-- `SpatialContext` dataclass from `src/shared/types.py`. -/
structure SpatialContext where
  position : ℚ × ℚ
  orientation : ℚ
  zone : Option String := none
  deriving Repr, DecidableEq

/-- `ActionContext` dataclass from `src/shared/types.py`.
`progress` defaults to `0.0`; the comment in the source documents the
intended range `0.0` to `1.0` but the dataclass does not enforce it. -/
structure ActionContext where
  target_object : Option String := none
  progress : ℚ := 0
  metadata : List (String × String) := []
  deriving Repr, DecidableEq

/-- `Observation` dataclass from `src/shared/types.py`.
`confidence` defaults to `1.0`. -/
structure Observation where
  timestamp : ℚ
  agent_id : String
  detected_microaction : String
  spatial_context : SpatialContext
  action_context : ActionContext
  confidence : ℚ := 1
  deriving Repr, DecidableEq

/-- `BeliefState` dataclass from `src/shared/types.py`.  `most_likely` is an
ordinary constructor argument: nothing in the source computes it from
`distribution` or checks it against `distribution`. -/
structure BeliefState where
  timestamp : ℚ
  agent_id : String
  distribution : List (String × ℚ)
  most_likely : String
  confidence : ℚ
  predicted_next_actions : List (String × List String) := []
  deriving Repr, DecidableEq

/-- `AgentState` dataclass from `src/shared/types.py`. -/
structure AgentState where
  agent_id : String
  current_zone : String
  holding : Option String := none
  current_task : Option String := none
  metadata : List (String × String) := []
  deriving Repr, DecidableEq

/-- `WorldState` dataclass from `src/shared/types.py`. -/
structure WorldState where
  timestamp : ℚ
  agent_states : List (String × AgentState)
  object_locations : List (String × String)
  predicates : List String := []
  metadata : List (String × String) := []
  deriving Repr, DecidableEq

/-- The closed `ActionType` enumeration from `src/shared/types.py`. -/
inductive ActionType where
  | NAVIGATE
  | PICK
  | PLACE
  | WAIT
  | HANDOVER
  deriving Repr, DecidableEq

/-- The string value each `ActionType` enum member carries in the source. -/
def ActionType.value : ActionType → String
  | .NAVIGATE => "navigate"
  | .PICK => "pick"
  | .PLACE => "place"
  | .WAIT => "wait"
  | .HANDOVER => "handover"

/-- `AbstractAction` dataclass from `src/shared/types.py`.  `parameters` is a
plain dict; the source imposes no per-`action_type` key requirements. -/
structure AbstractAction where
  action_type : ActionType
  parameters : List (String × String)
  estimated_path : Option (List (ℚ × ℚ)) := none
  estimated_duration : ℚ := 0
  spatial_constraints : List (String × String) := []
  temporal_constraints : List (String × String) := []
  deriving Repr, DecidableEq

/-- `AbstractPlan` dataclass from `src/shared/types.py`. -/
structure AbstractPlan where
  goal_intention : String
  actions : List AbstractAction
  estimated_total_cost : ℚ := 0
  contingencies : List (String × String) := []
  metadata : List (String × String) := []
  deriving Repr, DecidableEq

/-- `TaskSchema` dataclass from `src/shared/types.py`. -/
structure TaskSchema where
  task_id : String
  parameters : List String
  decomposition : List String
  is_foreseeable : Bool := false
  metadata : List (String × String) := []
  deriving Repr, DecidableEq

/-- `TaskInstance` dataclass from `src/shared/types.py`. -/
structure TaskInstance where
  schema_id : String
  instance_id : String
  parameters : List (String × String)
  metadata : List (String × String) := []
  deriving Repr, DecidableEq

/-! The domain generation tool, `src/scripts/domain_assembler.py`. -/

/-- Rectangle bounds of a zone in the generated domain dictionary. -/
structure Bounds where
  x_min : Int
  x_max : Int
  y_min : Int
  y_max : Int
  deriving Repr, DecidableEq

/-- A zone entry of the generated domain dictionary. -/
structure Zone where
  id : String
  bounds : Bounds
  label : String
  deriving Repr, DecidableEq

/-- A shelf entry of the generated domain dictionary. -/
structure Shelf where
  id : String
  position : Int × Int
  size : Int × Int
  slots : Nat
  zone : String
  deriving Repr, DecidableEq

/-- A table entry of the generated domain dictionary. -/
structure Table where
  id : String
  position : Int × Int
  size : Int × Int
  zone : String
  deriving Repr, DecidableEq

/-- A door entry of the generated domain dictionary. -/
structure Door where
  id : String
  position : Int × Int
  size : Int × Int
  function : String
  deriving Repr, DecidableEq

/-- An item entry of the generated domain dictionary. -/
structure Item where
  id : String
  type : String
  initial_location : String
  size : Int × Int
  deriving Repr, DecidableEq

/-- The `metadata` block of the generated domain dictionary. -/
structure DomainMetadata where
  name : String
  description : String
  version : String
  source : String
  deriving Repr, DecidableEq

/-- The `environment` block of the generated domain dictionary. -/
structure Environment where
  width : Nat
  height : Nat
  units : String
  deriving Repr, DecidableEq

/-- The whole domain dictionary returned by `generate_test_domain`. -/
structure Domain where
  metadata : DomainMetadata
  environment : Environment
  zones : List Zone
  shelves : List Shelf
  tables : List Table
  doors : List Door
  items : List Item
  deriving Repr, DecidableEq

/-- `generate_test_domain` from `src/scripts/domain_assembler.py`: returns the
hardcoded test domain dictionary, field for field.  Its Python original takes
no arguments and reads no external state; the `Unit` argument stands for the
empty argument list. -/
def generate_test_domain (_u : Unit) : Domain :=
  { metadata :=
      { name := "test_kitting_cell"
        description := "Test environment for intention recognition"
        version := "1.0"
        source := "hardcoded_test_data" }
    environment :=
      { width := 1600, height := 800, units := "pixels" }
    zones :=
      [ { id := "zone_SE"
          bounds := { x_min := 800, x_max := 1600, y_min := 0, y_max := 400 }
          label := "southeast_storage" },
        { id := "zone_SW"
          bounds := { x_min := 0, x_max := 800, y_min := 0, y_max := 400 }
          label := "southwest_storage" },
        { id := "zone_NW"
          bounds := { x_min := 0, x_max := 800, y_min := 400, y_max := 800 }
          label := "northwest_work" },
        { id := "zone_NE"
          bounds := { x_min := 800, x_max := 1600, y_min := 400, y_max := 800 }
          label := "northeast_work" } ]
    shelves :=
      [ { id := "shelf_1", position := (100, 100), size := (100, 100), slots := 4, zone := "zone_SW" },
        { id := "shelf_2", position := (300, 100), size := (100, 100), slots := 4, zone := "zone_SW" },
        { id := "shelf_3", position := (1400, 100), size := (100, 100), slots := 4, zone := "zone_SE" } ]
    tables :=
      [ { id := "kitting_table", position := (650, 710), size := (300, 90), zone := "zone_NW" } ]
    doors :=
      [ { id := "south_exit", position := (725, 0), size := (150, 30), function := "exit" },
        { id := "north_entry_A", position := (1450, 770), size := (150, 30), function := "enter" } ]
    items :=
      [ { id := "item_1", type := "part_A", initial_location := "shelf_1", size := (25, 25) },
        { id := "item_2", type := "part_A", initial_location := "shelf_2", size := (25, 25) },
        { id := "item_3", type := "part_B", initial_location := "shelf_3", size := (25, 25) } ] }

/-- Filesystem / console side effects performed by
`convert_gazebo_to_domain`, in program order.  `mkdirParents p` models
`Path(p).mkdir(parents=True, exist_ok=True)`; `writeFile` models opening the
output path for writing and dumping the YAML text. -/
inductive FsEffect where
  | mkdirParents (path : String)
  | printLine (line : String)
  | writeFile (path : String) (content : String)
  deriving Repr, DecidableEq

/-- An uncaught Python exception.  The only one the tool can raise is
`NotImplementedError` (the spec calls this failure class `UnsupportedInput`). -/
inductive PyError where
  | notImplementedError (msg : String)
  deriving Repr, DecidableEq

/-- `Path(p).parent` for the relative string paths used by the tool: drop the
last path component; a bare file name has parent `"."`. -/
def parentDir (p : String) : String :=
  let comps := p.splitOn "/"
  if comps.length ≤ 1 then "." else String.intercalate "/" comps.dropLast

/-- Render an `[x, y]` pair the way the YAML dump prints a two-element list. -/
def pairYaml (v : Int × Int) : String :=
  "- " ++ toString v.1 ++ "\n  - " ++ toString v.2

/-- Render one zone record of the domain dictionary. -/
def zoneYaml (z : Zone) : String :=
  "- id: " ++ z.id ++ "\n  bounds:\n    x_min: " ++ toString z.bounds.x_min ++
  "\n    x_max: " ++ toString z.bounds.x_max ++ "\n    y_min: " ++ toString z.bounds.y_min ++
  "\n    y_max: " ++ toString z.bounds.y_max ++ "\n  label: " ++ z.label

/-- Render one shelf record of the domain dictionary. -/
def shelfYaml (s : Shelf) : String :=
  "- id: " ++ s.id ++ "\n  position:\n  " ++ pairYaml s.position ++
  "\n  size:\n  " ++ pairYaml s.size ++ "\n  slots: " ++ toString s.slots ++
  "\n  zone: " ++ s.zone

/-- Render one table record of the domain dictionary. -/
def tableYaml (t : Table) : String :=
  "- id: " ++ t.id ++ "\n  position:\n  " ++ pairYaml t.position ++
  "\n  size:\n  " ++ pairYaml t.size ++ "\n  zone: " ++ t.zone

/-- Render one door record of the domain dictionary. -/
def doorYaml (d : Door) : String :=
  "- id: " ++ d.id ++ "\n  position:\n  " ++ pairYaml d.position ++
  "\n  size:\n  " ++ pairYaml d.size ++ "\n  function: " ++ d.function

/-- Render one item record of the domain dictionary. -/
def itemYaml (i : Item) : String :=
  "- id: " ++ i.id ++ "\n  type: " ++ i.type ++
  "\n  initial_location: " ++ i.initial_location ++
  "\n  size:\n  " ++ pairYaml i.size

/-- Deterministic model of `yaml.dump(domain, default_flow_style=False,
sort_keys=False)`: block style, keys in insertion order.  The exact byte
layout of PyYAML is not reproduced; what the claims rely on is that the dump
is a pure function of the domain value. -/
def yamlDump (d : Domain) : String :=
  "metadata:\n  name: " ++ d.metadata.name ++
  "\n  description: " ++ d.metadata.description ++
  "\n  version: " ++ d.metadata.version ++
  "\n  source: " ++ d.metadata.source ++
  "\nenvironment:\n  width: " ++ toString d.environment.width ++
  "\n  height: " ++ toString d.environment.height ++
  "\n  units: " ++ d.environment.units ++
  "\nzones:\n" ++ String.intercalate "\n" (d.zones.map zoneYaml) ++
  "\nshelves:\n" ++ String.intercalate "\n" (d.shelves.map shelfYaml) ++
  "\ntables:\n" ++ String.intercalate "\n" (d.tables.map tableYaml) ++
  "\ndoors:\n" ++ String.intercalate "\n" (d.doors.map doorYaml) ++
  "\nitems:\n" ++ String.intercalate "\n" (d.items.map itemYaml) ++ "\n"

/-- `convert_gazebo_to_domain` from `src/scripts/domain_assembler.py`.
Returns the ordered effect trace of the invocation together with its result:
`Except.ok ()` when the function returns normally, `Except.error e` when it
raises.  Mirrors the source order: the output path's parent directory is
created first; with no input path the test domain is generated, written and
summarised; with an input path the function prints the parsing banner and
then raises `NotImplementedError` before any write. -/
def convert_gazebo_to_domain (gazebo_json_path : Option String)
    (output_path : String) : List FsEffect × Except PyError Unit :=
  let pre := [FsEffect.mkdirParents (parentDir output_path)]
  match gazebo_json_path with
  | some p =>
      (pre ++ [FsEffect.printLine ("Parsing Gazebo JSON from " ++ p)],
       Except.error (PyError.notImplementedError "Gazebo JSON parsing not yet implemented"))
  | none =>
      let domain := generate_test_domain ()
      (pre ++
        [FsEffect.printLine "No Gazebo JSON provided - generating test data",
         FsEffect.writeFile output_path (yamlDump domain),
         FsEffect.printLine ("Generated domain config at " ++ output_path),
         FsEffect.printLine "\nDomain Summary:",
         FsEffect.printLine ("  - Shelves: " ++ toString domain.shelves.length),
         FsEffect.printLine ("  - Items: " ++ toString domain.items.length),
         FsEffect.printLine ("  - Zones: " ++ toString domain.zones.length),
         FsEffect.printLine ("  - Grid: " ++ toString domain.environment.width ++
           "x" ++ toString domain.environment.height)],
       Except.ok ())

/-- Exit code of the whole script invocation (`__main__` block): `0` when
`convert_gazebo_to_domain` returns normally, `1` when the uncaught exception
terminates the Python process. -/
def scriptExitCode (input : Option String) (output : String) : Nat :=
  match (convert_gazebo_to_domain input output).2 with
  | Except.ok _ => 0
  | Except.error _ => 1

/-- The `(path, content)` pair of a `writeFile` effect, `none` otherwise. -/
def FsEffect.writeOf : FsEffect → Option (String × String)
  | .writeFile p c => some (p, c)
  | _ => none

/-- All file writes an invocation performs, in order. -/
def writesOf (r : List FsEffect × Except PyError Unit) : List (String × String) :=
  r.1.filterMap FsEffect.writeOf

/-! Spec-side predicates.  These are written from the specification's words
(they have no counterpart in the source, which performs no validation); they
are used to state the claims and compare them with what the code does. -/

/-- Zone identifiers of a loaded domain. -/
def domainZoneIds (d : Domain) : List String := d.zones.map Zone.id

/-- Validity of an `Observation` as the spec's `validate_observation`
describes it: `confidence` and `action_context.progress` in `[0,1]`, and the
spatial zone, when set, among the domain's zone ids. -/
def observationValidSpec (zoneIds : List String) (o : Observation) : Bool :=
  decide (0 ≤ o.confidence) && decide (o.confidence ≤ 1) &&
  decide (0 ≤ o.action_context.progress) && decide (o.action_context.progress ≤ 1) &&
  (match o.spatial_context.zone with
   | none => true
   | some z => zoneIds.contains z)

/-- Distribution validity from the spec: all probabilities in `[0,1]` and the
sum within `1e-6` of `1`. -/
def distValidSpec (b : BeliefState) : Bool :=
  b.distribution.all (fun kv => decide (0 ≤ kv.2) && decide (kv.2 ≤ 1)) &&
  decide (|b.distribution.foldl (fun acc kv => acc + kv.2) 0 - 1| ≤ 1 / 1000000)

/-- Entry of maximal probability, ties broken towards the lexicographically
smaller key — the selection rule the spec prescribes for `most_likely`. -/
def argmaxEntry : List (String × ℚ) → Option (String × ℚ)
  | [] => none
  | e :: rest =>
    match argmaxEntry rest with
    | none => some e
    | some b =>
      if decide (b.2 < e.2) || (decide (e.2 = b.2) && decide (e.1 < b.1)) then some e
      else some b

/-- Key of maximal probability with lexicographic tie-break. -/
def argmaxLexSpec (d : List (String × ℚ)) : Option String :=
  (argmaxEntry d).map Prod.fst

/-- The fixed required-parameter table of the spec (§4.4): NAVIGATE needs
`target`; PICK, PLACE and HANDOVER need `target` and `item`; WAIT needs
nothing.  No such table exists in the source. -/
def requiredKeysSpec : ActionType → List String
  | .NAVIGATE => ["target"]
  | .PICK => ["target", "item"]
  | .PLACE => ["target", "item"]
  | .WAIT => []
  | .HANDOVER => ["target", "item"]

/-- Whether an action's parameter dict contains every key the spec's table
requires for its action type (extra keys allowed). -/
def actionParamsOkSpec (a : AbstractAction) : Bool :=
  (requiredKeysSpec a.action_type).all (fun k => (a.parameters.map Prod.fst).contains k)

/-- Referential integrity of a domain: every shelf and table `zone` is a zone
id, and every item `initial_location` is a shelf or table id. -/
def domainRefIntegrity (d : Domain) : Bool :=
  d.shelves.all (fun s => (d.zones.map Zone.id).contains s.zone) &&
  d.tables.all (fun t => (d.zones.map Zone.id).contains t.zone) &&
  d.items.all
    (fun i => (d.shelves.map Shelf.id ++ d.tables.map Table.id).contains i.initial_location)

/-! Concrete instances used to settle the validation claims.  The dataclasses
of `src/shared/types.py` accept them without complaint. -/

/-- An `Observation` with `confidence = 2`, outside `[0,1]`.  The dataclass
constructor accepts it: nothing in the source validates observations. -/
def badObservation : Observation :=
  { timestamp := 0
    agent_id := "human_1"
    detected_microaction := "move_to_shelf_3"
    spatial_context := { position := (0, 0), orientation := 0 }
    action_context := {}
    confidence := 2 }

/-- A `BeliefState` whose `distribution` is the spec's example
`A ↦ 0.7, B ↦ 0.3` but whose `most_likely` is `"B"`.  The dataclass
constructor accepts it: `most_likely` is an ordinary argument. -/
def badBeliefState : BeliefState :=
  { timestamp := 0
    agent_id := "human_1"
    distribution := [("A", 7 / 10), ("B", 3 / 10)]
    most_likely := "B"
    confidence := 1 }

/-- A NAVIGATE `AbstractAction` with empty `parameters`, missing the
required `target` key.  The dataclass constructor accepts it. -/
def badAction : AbstractAction :=
  { action_type := ActionType.NAVIGATE, parameters := [] }

/-- Constructing an `Observation` without passing `confidence`: the dataclass
default `confidence = 1.0` applies. -/
def observationDefaultConf (ts : ℚ) (aid mic : String) (sc : SpatialContext)
    (ac : ActionContext) : Observation :=
  { timestamp := ts, agent_id := aid, detected_microaction := mic,
    spatial_context := sc, action_context := ac }

/-- Constructing an `ActionContext` without passing `progress`: the dataclass
default `progress = 0.0` applies. -/
def actionContextDefaultProgress (tgt : Option String)
    (md : List (String × String)) : ActionContext :=
  { target_object := tgt, metadata := md }

/-! Theorems settling the claims. -/

/-- C1, counterexample: the claim says an `Observation` with `confidence`
outside `[0,1]` cannot be constructed (validation fails with
`SchemaViolation` at construction time).  But `badObservation` is a
constructed `Observation` with `confidence = 2`, which fails every check the
spec's `validate_observation` describes: no construction-time validation
exists in the source. -/
theorem C1_counterexample :
    badObservation.confidence = 2 ∧
    observationValidSpec (domainZoneIds (generate_test_domain ())) badObservation = false :=
  ⟨rfl, by decide⟩

/-- C1, amended: `Observation` construction performs no validation at all —
the constructor accepts arbitrary `confidence`, `progress` and zone values
and stores them unchanged, so invalid observations enter the pipeline
unimpeded. -/
theorem C1_construction_unvalidated :
    ∀ (ts : ℚ) (aid mic : String) (sc : SpatialContext) (ac : ActionContext) (conf : ℚ),
      (Observation.mk ts aid mic sc ac conf).confidence = conf ∧
      (Observation.mk ts aid mic sc ac conf).action_context.progress = ac.progress ∧
      (Observation.mk ts aid mic sc ac conf).spatial_context.zone = sc.zone :=
  fun _ _ _ _ _ _ => ⟨rfl, rfl, rfl⟩

/-- C2, counterexample: the claim says every valid `BeliefState` with
non-empty distribution has `most_likely` equal to the maximal-probability key
(lexicographic tie-break).  `badBeliefState` has the spec's own example
distribution `A ↦ 0.7, B ↦ 0.3` (valid, non-empty, argmax `"A"`) yet
`most_likely = "B"`, and the source accepts it: `most_likely` is never
checked or computed. -/
theorem C2_counterexample :
    distValidSpec badBeliefState = true ∧
    badBeliefState.distribution.length = 2 ∧
    argmaxLexSpec badBeliefState.distribution = some "A" ∧
    badBeliefState.most_likely = "B" := by
  refine ⟨?_, by decide, ?_, rfl⟩
  · simp [distValidSpec, badBeliefState]
    norm_num
  · simp [argmaxLexSpec, argmaxEntry, badBeliefState]
    norm_num

/-- C2, amended: `BeliefState.most_likely` is an ordinary caller-supplied
constructor argument stored unchanged; the code imposes no relation between
it and `distribution`, so the argmax/tie-break property does not hold of
constructed instances in general. -/
theorem C2_most_likely_unconstrained :
    ∀ (ts : ℚ) (aid : String) (d : List (String × ℚ)) (m : String) (c : ℚ)
      (pna : List (String × List String)),
      (BeliefState.mk ts aid d m c pna).most_likely = m ∧
      (BeliefState.mk ts aid d m c pna).distribution = d :=
  fun _ _ _ _ _ _ => ⟨rfl, rfl⟩

/-- C3, counterexample: the claim says every `AbstractAction` carries all
required keys for its action type (NAVIGATE needs `target`).  `badAction` is
a constructed NAVIGATE action with empty `parameters`: the source's
`parameters` dict is unconstrained and no required-key table exists in the
code. -/
theorem C3_counterexample :
    badAction.action_type = ActionType.NAVIGATE ∧
    badAction.parameters = [] ∧
    requiredKeysSpec badAction.action_type = ["target"] ∧
    actionParamsOkSpec badAction = false :=
  ⟨rfl, rfl, rfl, by decide⟩

/-- C3, amended: `AbstractAction` construction imposes no shape constraint on
`parameters` — the constructor accepts any parameter dict for any action type
and stores both unchanged. -/
theorem C3_parameters_unconstrained :
    ∀ (a : ActionType) (ps : List (String × String)) (ep : Option (List (ℚ × ℚ)))
      (ed : ℚ) (sc tc : List (String × String)),
      (AbstractAction.mk a ps ep ed sc tc).action_type = a ∧
      (AbstractAction.mk a ps ep ed sc tc).parameters = ps :=
  fun _ _ _ _ _ _ => ⟨rfl, rfl⟩

/-- C4: with no input path and output `configs/domain.yaml` the tool produces
exactly the 4 zones `zone_SE`, `zone_SW`, `zone_NW`, `zone_NE`, 3 shelves,
1 table, 2 doors and 3 items on a 1600 × 800 grid, and the invocation exits
with code 0. -/
theorem C4_test_domain_scenario :
    (generate_test_domain ()).zones.map Zone.id = ["zone_SE", "zone_SW", "zone_NW", "zone_NE"] ∧
    (generate_test_domain ()).zones.length = 4 ∧
    (generate_test_domain ()).shelves.length = 3 ∧
    (generate_test_domain ()).tables.length = 1 ∧
    (generate_test_domain ()).doors.length = 2 ∧
    (generate_test_domain ()).items.length = 3 ∧
    (generate_test_domain ()).environment.width = 1600 ∧
    (generate_test_domain ()).environment.height = 800 ∧
    scriptExitCode none "configs/domain.yaml" = 0 :=
  ⟨by decide, rfl, rfl, rfl, rfl, rfl, rfl, rfl, rfl⟩

/-- C5: given an external-input path the tool raises the not-implemented
error (the spec's `UnsupportedInput` class), the process exits non-zero
(code 1), and no file write occurs — no partial output file is written. -/
theorem C5_unsupported_input_fails (p out : String) :
    (convert_gazebo_to_domain (some p) out).2 =
      Except.error (PyError.notImplementedError "Gazebo JSON parsing not yet implemented") ∧
    scriptExitCode (some p) out = 1 ∧
    writesOf (convert_gazebo_to_domain (some p) out) = [] := by
  refine ⟨rfl, rfl, ?_⟩
  simp [writesOf, convert_gazebo_to_domain, FsEffect.writeOf]

/-- C6: every file content the tool ever writes is the dump of
`generate_test_domain ()`, and that domain satisfies referential integrity:
every shelf/table `zone` is a zone id and every item `initial_location` is a
shelf or table id. -/
theorem C6_emitted_domain_integrity (input : Option String) (out : String) :
    (writesOf (convert_gazebo_to_domain input out)).all
      (fun w => w.2 == yamlDump (generate_test_domain ())) = true ∧
    domainRefIntegrity (generate_test_domain ()) = true := by
  refine ⟨?_, by decide⟩
  cases input <;> simp [writesOf, convert_gazebo_to_domain, FsEffect.writeOf]

/-- C7: a no-input invocation writes exactly one file, whose content is the
fixed string `yamlDump (generate_test_domain ())`, and returns normally;
hence any two such invocations with the same output path write byte-identical
output. -/
theorem C7_idempotent_output (out : String) :
    writesOf (convert_gazebo_to_domain none out) =
      [(out, yamlDump (generate_test_domain ()))] ∧
    (convert_gazebo_to_domain none out).2 = Except.ok () := by
  refine ⟨?_, rfl⟩
  simp [writesOf, convert_gazebo_to_domain, FsEffect.writeOf]

/-- C8: an `Observation` constructed without an explicit `confidence` gets the
schema default `1.0` and an `ActionContext` constructed without an explicit
`progress` gets `0.0`; when explicit values are passed they are stored
unchanged (the defaults are schema defaults, not substitutions applied to
supplied values). -/
theorem C8_schema_defaults :
    ∀ (ts : ℚ) (aid mic : String) (sc : SpatialContext) (ac : ActionContext)
      (tgt : Option String) (md : List (String × String)) (c pr : ℚ),
      (observationDefaultConf ts aid mic sc ac).confidence = 1 ∧
      (actionContextDefaultProgress tgt md).progress = 0 ∧
      (Observation.mk ts aid mic sc ac c).confidence = c ∧
      (ActionContext.mk tgt pr md).progress = pr :=
  fun _ _ _ _ _ _ _ _ _ => ⟨rfl, rfl, rfl, rfl⟩

/-- C9: an invocation with an input path performs exactly two effects — it
first creates the output path's parent directories, then prints the parsing
banner — before raising `NotImplementedError`; the filesystem is modified
(directories created) even though the output file is never written. -/
theorem C9_mkdir_precedes_error (p out : String) :
    (convert_gazebo_to_domain (some p) out).1 =
      [FsEffect.mkdirParents (parentDir out),
       FsEffect.printLine ("Parsing Gazebo JSON from " ++ p)] ∧
    (convert_gazebo_to_domain (some p) out).2 =
      Except.error (PyError.notImplementedError "Gazebo JSON parsing not yet implemented") :=
  ⟨rfl, rfl⟩

/-- C10: `generate_test_domain` reads nothing: it is a pure constant of its
(empty) argument list, so any two calls return structurally identical
domains. -/
theorem C10_generator_deterministic (u v : Unit) :
    generate_test_domain u = generate_test_domain v :=
  rfl

end Teamrob
